import Mathlib

/-!
Shallow embedding of the BabelDOC batch-translation workflow
(src/babeldoc_workflow.py) and verification of its specified properties.

The filesystem is modelled explicitly: a directory listing is a
`List FileEntry` (directory part and base name), and the set of files that
exist under the output root is a `List String` of full paths.  Per-job
subprocess results are modelled by `RunResult`; per-future results seen by
the batch loop are modelled by `JobResult`.
-/

/-- Substring test on character lists: Python's `needle in hay`.  A needle is
contained in the haystack iff it is a prefix of some suffix. -/
def containsSub (needle : List Char) : List Char → Bool
  | [] => needle.isEmpty
  | c :: rest => needle.isPrefixOf (c :: rest) || containsSub needle rest

/-- Substring test on strings: Python's `needle in hay`. -/
def strContains (needle hay : String) : Bool :=
  containsSub needle.data hay.data

/-- Suffix test on strings, used to model the `rglob("*.pdf")` name pattern. -/
def strEndsWith (hay suffix : String) : Bool :=
  suffix.data.isSuffixOf hay.data

/-- One file on disk: the path of its containing directory and its base name.
Python's `f.name` is `name`; `str(f)` is the full path `dir ++ "/" ++ name`. -/
structure FileEntry where
  dir : String
  name : String
deriving DecidableEq, Repr

/-- Full path of a file, Python's `str(f)`. -/
def fullPath (f : FileEntry) : String := f.dir ++ "/" ++ f.name

/-- Embedding of Python `pathlib.Path.stem`: the base name with its last
suffix removed; a dot at position 0 or at the very end does not start a
suffix. -/
def pathStem (name : String) : String :=
  let rev := name.data.reverse
  let j := rev.findIdx (fun c => c == '.')
  if j = 0 ∨ j ≥ rev.length - 1 then name
  else (name.data.take (name.data.length - 1 - j)).asString

/-- Embedding of `BatchProcessor.scan_pdf_files` (lines 334-353): `rglob`
over the input tree keeps names ending in `.pdf`; the filter then drops a
file when its base name contains `_compressed.pdf`, its base name contains
`_part`, or its full path contains `temp_splits`.  The argument is the
recursive listing of all files under the input directory. -/
def scan_pdf_files (files : List FileEntry) : List FileEntry :=
  let pdf_files := files.filter (fun f => strEndsWith f.name ".pdf")
  pdf_files.filter (fun f =>
    !(strContains "_compressed.pdf" f.name ||
      strContains "_part" f.name ||
      strContains "temp_splits" (fullPath f)))

/-- Expected-output paths built inside `BatchProcessor.is_completed`
(lines 369-373): `{stem}_translated.pdf` when `translated_only` is among the
configured modes, `{stem}_dual.pdf` when `bilingual` is. -/
def expected_files (output_dir : String) (pdf_modes : List String) (pdf_name : String) : List String :=
  (if pdf_modes.contains "translated_only"
    then [output_dir ++ "/" ++ pdf_name ++ "_translated.pdf"] else []) ++
  (if pdf_modes.contains "bilingual"
    then [output_dir ++ "/" ++ pdf_name ++ "_dual.pdf"] else [])

/-- Embedding of `BatchProcessor.is_completed` (lines 355-375): Python's
`expected_files and all(f.exists() for f in expected_files)` — false when the
expected list is empty, else true iff every expected file exists.
`fsFiles` is the list of full paths that exist on disk. -/
def is_completed (fsFiles : List String) (output_dir : String) (pdf_modes : List String) (pdf_name : String) : Bool :=
  let expected := expected_files output_dir pdf_modes pdf_name
  !expected.isEmpty && expected.all (fun f => fsFiles.contains f)

/-- Path of the glossary CSV written by `PDFProcessor.process` (line 284):
`output_dir / "glossary.csv"`, the same fixed name for every job. -/
def glossary_csv_path (output_dir : String) : String :=
  output_dir ++ "/" ++ "glossary.csv"

/-- Output paths written on behalf of one job: `PDFProcessor.process`
(lines 277-285) writes the glossary CSV when the glossary is non-empty, and
the external tool then writes the per-mode expected outputs named after the
job's stem (the naming contract `is_completed` reads back). -/
def jobWrittenPaths (output_dir : String) (pdf_modes : List String)
    (glossaryNonempty : Bool) (pdf_name : String) : List String :=
  (if glossaryNonempty then [glossary_csv_path output_dir] else []) ++
  expected_files output_dir pdf_modes pdf_name

/-- Result of the `subprocess.run` call inside `PDFProcessor.process`
(lines 294-300): the child exited with a status code, exceeded the one-hour
timeout (`TimeoutExpired`), or could not be launched (`FileNotFoundError`). -/
inductive RunResult
  | exited (code : Nat)
  | timedOut
  | notFound
deriving DecidableEq, Repr

/-- Return value of `PDFProcessor.process` (lines 294-316): with
`check=True`, a normal return means exit status 0 and yields `True`;
`TimeoutExpired`, `CalledProcessError` (nonzero exit) and
`FileNotFoundError` all yield `False`. -/
def PDFProcessor.process : RunResult → Bool
  | .exited 0 => true
  | .exited (_ + 1) => false
  | .timedOut => false
  | .notFound => false

/-- Diagnostic message printed by `PDFProcessor.process` in each of its four
branches (lines 301, 306, 310, 314). -/
def PDFProcessor.processMessage : RunResult → String
  | .exited 0 => "✓ 翻译完成！"
  | .exited (_ + 1) => "✗ 处理失败"
  | .timedOut => "✗ 处理超时（1小时）"
  | .notFound => "✗ BabelDOC 未找到"

/-- Result of one future as seen by the collection loop of
`BatchProcessor.process` (lines 440-452): either `future.result()` returned
a boolean, or it raised an exception. -/
inductive JobResult
  | ok (success : Bool)
  | exn (msg : String)
deriving DecidableEq, Repr

/-- Elementary counting step of the collection loop (lines 443-452):
`True` increments the success count, `False` and an exception increment the
failure count. -/
def tallyStep : Nat × Nat → JobResult → Nat × Nat
  | (s, f), .ok true => (s + 1, f)
  | (s, f), .ok false => (s, f + 1)
  | (s, f), .exn _ => (s, f + 1)

/-- Aggregation over `as_completed` (lines 431-452): fold the counting step
over the per-future results in completion order, starting from `(0, 0)`. -/
def collectOutcomes (results : List JobResult) : Nat × Nat :=
  results.foldl tallyStep (0, 0)

/-- The scheduler part of `BatchProcessor.process`: every submitted job's
future is consumed exactly once by `as_completed`, in completion order
(`completed`), and its result is tallied. -/
def runBatch (completed : List FileEntry) (outcome : FileEntry → JobResult) : Nat × Nat :=
  collectOutcomes (completed.map outcome)

/-- Leading and trailing whitespace removal on a character list, Python's
`str.strip()`. -/
def stripChars (cs : List Char) : List Char :=
  ((cs.dropWhile Char.isWhitespace).reverse.dropWhile Char.isWhitespace).reverse

/-- Normalisation of the operator's answer at the confirmation prompt
(line 422): Python's `input(...).strip().lower()`. -/
def normalizeConfirm (s : String) : String :=
  ((stripChars s.data).map Char.toLower).asString

/-- Embedding of `BatchProcessor.process` (lines 377-462): scan, optional
resume filter, confirmation prompt, then the concurrent run.  `completed`
is the order in which the submitted futures complete; the returned pair is
`(success_count, failure_count)`. -/
def BatchProcessor.process (fsFiles : List String) (output_dir : String)
    (pdf_modes : List String) (resume_enabled : Bool) (files : List FileEntry)
    (confirmAnswer : String) (completed : List FileEntry)
    (outcome : FileEntry → JobResult) : Nat × Nat :=
  let pdf_files := scan_pdf_files files
  if pdf_files.isEmpty then (0, 0)
  else
    let pdf_files := if resume_enabled
      then pdf_files.filter (fun f => !is_completed fsFiles output_dir pdf_modes (pathStem f.name))
      else pdf_files
    if pdf_files.isEmpty then (0, 0)
    else if normalizeConfirm confirmAnswer = "y" then runBatch completed outcome
    else (0, 0)

/-- Exit status of batch mode in `main` (lines 535-539):
`sys.exit(0 if failure_count == 0 else 1)` applied to the pair returned by
`BatchProcessor.process`. -/
def batchExitCode (counts : Nat × Nat) : Nat :=
  if counts.2 = 0 then 0 else 1

/-- Classification of one future's result as counted by the collection loop:
only `ok true` is a success. -/
def isSuccess : JobResult → Bool
  | .ok true => true
  | _ => false

lemma foldl_tallyStep (rs : List JobResult) (s f : Nat) :
    rs.foldl tallyStep (s, f) =
      (s + rs.countP isSuccess, f + rs.countP (fun r => !isSuccess r)) := by
  induction rs generalizing s f with
  | nil => simp
  | cons r rest ih =>
    cases r with
    | ok b =>
      cases b <;>
        simp [tallyStep, ih, List.countP_cons, isSuccess, Prod.ext_iff] <;> omega
    | exn m =>
      simp [tallyStep, ih, List.countP_cons, isSuccess, Prod.ext_iff]
      omega

lemma collectOutcomes_eq (rs : List JobResult) :
    collectOutcomes rs = (rs.countP isSuccess, rs.countP (fun r => !isSuccess r)) := by
  simpa [collectOutcomes] using foldl_tallyStep rs 0 0

lemma countP_succ_total (rs : List JobResult) :
    rs.countP isSuccess + rs.countP (fun r => !isSuccess r) = rs.length := by
  induction rs with
  | nil => simp
  | cons r rest ih =>
    cases hr : isSuccess r <;> simp [List.countP_cons, hr] <;> omega

/-- C1: on a batch of N accepted jobs the scheduler consumes every job's
future exactly once (the completion order is a permutation of the submitted
jobs), produces exactly N per-job outcomes, and the reported counts satisfy
succeeded + failed = N. -/
theorem runBatch_outcome_count (jobs completed : List FileEntry)
    (outcome : FileEntry → JobResult) (hperm : completed.Perm jobs) :
    (completed.map outcome).length = jobs.length ∧
    (runBatch completed outcome).1 + (runBatch completed outcome).2 = jobs.length := by
  have hlen : completed.length = jobs.length := hperm.length_eq
  constructor
  · simpa using hlen
  · have h := countP_succ_total (completed.map outcome)
    simp only [runBatch, collectOutcomes_eq, List.length_map] at h ⊢
    omega

/-- C1 witness: a concrete two-job batch whose futures complete in reverse
submission order still yields two outcomes with succeeded + failed = 2. -/
theorem runBatch_outcome_count_witness :
    ((([⟨"input", "b.pdf"⟩, ⟨"input", "a.pdf"⟩] : List FileEntry)).map
        (fun f => if f.name = "a.pdf" then JobResult.ok true else JobResult.exn "boom")).length =
      ([⟨"input", "a.pdf"⟩, ⟨"input", "b.pdf"⟩] : List FileEntry).length ∧
    (runBatch [⟨"input", "b.pdf"⟩, ⟨"input", "a.pdf"⟩]
        (fun f => if f.name = "a.pdf" then JobResult.ok true else JobResult.exn "boom")).1 +
      (runBatch [⟨"input", "b.pdf"⟩, ⟨"input", "a.pdf"⟩]
        (fun f => if f.name = "a.pdf" then JobResult.ok true else JobResult.exn "boom")).2 =
      ([⟨"input", "a.pdf"⟩, ⟨"input", "b.pdf"⟩] : List FileEntry).length :=
  runBatch_outcome_count [⟨"input", "a.pdf"⟩, ⟨"input", "b.pdf"⟩]
    [⟨"input", "b.pdf"⟩, ⟨"input", "a.pdf"⟩]
    (fun f => if f.name = "a.pdf" then JobResult.ok true else JobResult.exn "boom")
    (List.Perm.swap (⟨"input", "a.pdf"⟩ : FileEntry) (⟨"input", "b.pdf"⟩ : FileEntry) [])

/-- C2: batch-mode exit status is 0 iff the failure count is 0, independent
of the success count, and the empty batch (0, 0) exits 0. -/
theorem batch_exit_status_iff_no_failures (s f t : Nat) :
    (batchExitCode (s, f) = 0 ↔ f = 0) ∧
    batchExitCode (s, f) = batchExitCode (t, f) ∧
    batchExitCode (0, 0) = 0 := by
  unfold batchExitCode
  by_cases h : f = 0 <;> simp [h]

/-- C7: a job with zero required modes is never reported complete, for every
filesystem state. -/
theorem empty_modes_never_completed (fsFiles : List String) (output_dir pdf_name : String) :
    is_completed fsFiles output_dir [] pdf_name = false := by
  simp [is_completed, expected_files, List.contains]

/-- C8: an exception raised by one job's execution is caught at the worker
boundary and tallied as exactly one more failure; the success count and the
tallies of all sibling jobs, before and after it in completion order, are
unchanged — the batch is not aborted. -/
theorem exception_increments_failures_only (rs1 rs2 : List JobResult) (msg : String) :
    collectOutcomes (rs1 ++ JobResult.exn msg :: rs2) =
      ((collectOutcomes (rs1 ++ rs2)).1, (collectOutcomes (rs1 ++ rs2)).2 + 1) := by
  simp [collectOutcomes_eq, List.countP_append, List.countP_cons, isSuccess, Prod.ext_iff]
  omega

/-- C3 counterexample: a nonzero exit (Failure) and an unlaunchable
executable (ToolNotFound) are different run results, yet the outcome value
produced by `PDFProcessor.process` is the same `false` for both — the four
cases are not mutually distinguishable in the produced value. -/
theorem toolNotFound_value_equals_failure_value :
    RunResult.notFound ≠ RunResult.exited 1 ∧
    PDFProcessor.process RunResult.notFound = PDFProcessor.process (RunResult.exited 1) ∧
    PDFProcessor.process RunResult.notFound = false := by decide

/-- C3 amended: exit status 0 before timeout yields `true` and the three
failure classes (nonzero exit, timeout, unlaunchable executable) all yield
`false`; ToolNotFound is distinguished from Failure and Timeout only in the
printed diagnostic message, not in the returned outcome value. -/
theorem process_outcome_classification (n : Nat) (hn : n ≠ 0) :
    PDFProcessor.process (RunResult.exited 0) = true ∧
    PDFProcessor.process (RunResult.exited n) = false ∧
    PDFProcessor.process RunResult.timedOut = false ∧
    PDFProcessor.process RunResult.notFound = false ∧
    PDFProcessor.processMessage RunResult.notFound ≠ PDFProcessor.processMessage (RunResult.exited n) ∧
    PDFProcessor.processMessage RunResult.notFound ≠ PDFProcessor.processMessage RunResult.timedOut := by
  obtain ⟨m, rfl⟩ := Nat.exists_eq_succ_of_ne_zero hn
  refine ⟨rfl, rfl, rfl, rfl, ?_, ?_⟩
  · show ("✗ BabelDOC 未找到" : String) ≠ "✗ 处理失败"
    decide
  · show ("✗ BabelDOC 未找到" : String) ≠ "✗ 处理超时（1小时）"
    decide

/-- C3 witness: the amended classification instantiated at exit status 1. -/
theorem process_outcome_classification_witness :
    PDFProcessor.process (RunResult.exited 0) = true ∧
    PDFProcessor.process (RunResult.exited 1) = false ∧
    PDFProcessor.process RunResult.timedOut = false ∧
    PDFProcessor.process RunResult.notFound = false ∧
    PDFProcessor.processMessage RunResult.notFound ≠ PDFProcessor.processMessage (RunResult.exited 1) ∧
    PDFProcessor.processMessage RunResult.notFound ≠ PDFProcessor.processMessage RunResult.timedOut :=
  process_outcome_classification 1 (by decide)

/-- C10: when the normalised confirmation answer is anything but "y" the
batch is cancelled with report (0, 0), the process exits 0, and that exit
code equals the one of any batch with zero failures. -/
theorem cancelled_batch_reports_zero (fsFiles : List String) (output_dir : String)
    (pdf_modes : List String) (resume_enabled : Bool) (files : List FileEntry)
    (answer : String) (completed : List FileEntry) (outcome : FileEntry → JobResult)
    (h : normalizeConfirm answer ≠ "y") :
    BatchProcessor.process fsFiles output_dir pdf_modes resume_enabled files answer completed outcome = (0, 0) ∧
    batchExitCode (BatchProcessor.process fsFiles output_dir pdf_modes resume_enabled files answer completed outcome) = 0 ∧
    (∀ n : Nat, batchExitCode (n, 0) = 0) := by
  have hmain : BatchProcessor.process fsFiles output_dir pdf_modes resume_enabled files answer completed outcome = (0, 0) := by
    simp only [BatchProcessor.process]
    split_ifs <;> simp_all
  exact ⟨hmain, by simp [hmain, batchExitCode], fun n => by simp [batchExitCode]⟩

/-- C10 witness: a concrete one-job batch answered with "n" reports (0, 0). -/
theorem cancelled_batch_reports_zero_witness :
    BatchProcessor.process [] "output" ["translated_only"] false [⟨"input", "a.pdf"⟩]
      "n" [⟨"input", "a.pdf"⟩] (fun _ => JobResult.ok true) = (0, 0) :=
  (cancelled_batch_reports_zero [] "output" ["translated_only"] false [⟨"input", "a.pdf"⟩]
    "n" [⟨"input", "a.pdf"⟩] (fun _ => JobResult.ok true) (by decide)).1

lemma string_append_right_inj (a b t : String) (h : a ++ t = b ++ t) : a = b := by
  apply String.ext
  have hd := congrArg String.data h
  simp only [String.data_append] at hd
  exact List.append_cancel_right hd

lemma string_append_left_inj (a b c : String) (h : a ++ b = a ++ c) : b = c := by
  apply String.ext
  have hd := congrArg String.data h
  simp only [String.data_append] at hd
  exact List.append_cancel_left hd

lemma translated_ne_dual (x y : String) :
    x ++ "_translated.pdf" ≠ y ++ "_dual.pdf" := by
  intro h
  have hd := congrArg String.data h
  simp only [String.data_append] at hd
  have hr := congrArg List.reverse hd
  simp only [List.reverse_append] at hr
  have h4 : ("_translated.pdf".data.reverse ++ x.data.reverse)[4]? =
      ("_dual.pdf".data.reverse ++ y.data.reverse)[4]? := by rw [hr]
  rw [List.getElem?_append_left (by decide), List.getElem?_append_left (by decide)] at h4
  exact absurd h4 (by decide)

lemma mem_expected_files (od : String) (pm : List String) (pn p : String) :
    p ∈ expected_files od pm pn ↔
      (pm.contains "translated_only" = true ∧ p = od ++ "/" ++ pn ++ "_translated.pdf") ∨
      (pm.contains "bilingual" = true ∧ p = od ++ "/" ++ pn ++ "_dual.pdf") := by
  unfold expected_files
  cases ht : pm.contains "translated_only" <;>
    cases hb : pm.contains "bilingual" <;> simp

/-- C4 counterexample: two distinct jobs both write the glossary CSV at one
shared path under the output root, so their written-path sets intersect and
concurrent jobs contend on that file. -/
theorem glossary_path_shared_between_jobs :
    ("a" : String) ≠ "b" ∧
    glossary_csv_path "output" ∈ jobWrittenPaths "output" ["translated_only"] true "a" ∧
    glossary_csv_path "output" ∈ jobWrittenPaths "output" ["translated_only"] true "b" := by decide

/-- C4 amended: the per-mode expected output paths are derived injectively
from each job's identifier — for distinct stems the expected-output sets are
disjoint — but the glossary CSV is written by every job to one shared path,
so full written-path sets of distinct jobs are not disjoint whenever the
glossary is non-empty. -/
theorem expected_outputs_disjoint (output_dir : String) (pdf_modes : List String)
    (s1 s2 p : String) (hne : s1 ≠ s2)
    (h1 : p ∈ expected_files output_dir pdf_modes s1) :
    p ∉ expected_files output_dir pdf_modes s2 := by
  intro h2
  rw [mem_expected_files] at h1 h2
  rcases h1 with ⟨-, h1⟩ | ⟨-, h1⟩ <;> rcases h2 with ⟨-, h2⟩ | ⟨-, h2⟩
  · exact hne (string_append_left_inj _ _ _ (string_append_right_inj _ _ _ (h1.symm.trans h2)))
  · exact translated_ne_dual _ _ (h1.symm.trans h2)
  · exact translated_ne_dual _ _ (h2.symm.trans h1)
  · exact hne (string_append_left_inj _ _ _ (string_append_right_inj _ _ _ (h1.symm.trans h2)))

/-- C4 witness: the disjointness of per-mode expected outputs instantiated
at two concrete jobs "a" and "b". -/
theorem expected_outputs_disjoint_witness :
    ("a" : String) ≠ "b" ∧
    "output" ++ "/" ++ "a" ++ "_translated.pdf" ∈ expected_files "output" ["translated_only", "bilingual"] "a" ∧
    "output" ++ "/" ++ "a" ++ "_translated.pdf" ∉ expected_files "output" ["translated_only", "bilingual"] "b" :=
  ⟨by decide, by decide,
    expected_outputs_disjoint "output" ["translated_only", "bilingual"] "a" "b"
      ("output" ++ "/" ++ "a" ++ "_translated.pdf") (by decide) (by decide)⟩

lemma is_completed_eq_true_iff (fsFiles : List String) (od : String) (pm : List String)
    (pn : String) (hE : (expected_files od pm pn).isEmpty = false) :
    is_completed fsFiles od pm pn = true ↔
      ∀ f ∈ expected_files od pm pn, f ∈ fsFiles := by
  simp [is_completed, hE, List.all_eq_true, List.contains, List.elem_iff]

/-- C5 counterexample: with both modes required and an empty output
directory, `is_completed` is false, and creating one of the two missing
required files (the translated PDF) leaves it false instead of flipping it
to true. -/
theorem one_missing_file_added_still_incomplete :
    is_completed [] "output" ["translated_only", "bilingual"] "a" = false ∧
    "output" ++ "/" ++ "a" ++ "_translated.pdf" ∈ expected_files "output" ["translated_only", "bilingual"] "a" ∧
    is_completed ["output/a_translated.pdf"] "output" ["translated_only", "bilingual"] "a" = false := by decide

/-- C5 amended: for a job with a non-empty expected-output set,
`is_completed` is true iff every required mode's expected file exists;
creating files never flips the result from true to false, and creating the
missing file flips false to true exactly when it is the only missing one. -/
theorem is_completed_iff_all_outputs (fsFiles : List String) (output_dir pdf_name : String)
    (pdf_modes : List String)
    (hE : (expected_files output_dir pdf_modes pdf_name).isEmpty = false) :
    (is_completed fsFiles output_dir pdf_modes pdf_name = true ↔
      ∀ f ∈ expected_files output_dir pdf_modes pdf_name, f ∈ fsFiles) ∧
    (∀ g : String, is_completed fsFiles output_dir pdf_modes pdf_name = true →
      is_completed (g :: fsFiles) output_dir pdf_modes pdf_name = true) ∧
    (∀ m ∈ expected_files output_dir pdf_modes pdf_name,
      (∀ f ∈ expected_files output_dir pdf_modes pdf_name, f ≠ m → f ∈ fsFiles) →
      is_completed (m :: fsFiles) output_dir pdf_modes pdf_name = true) := by
  refine ⟨is_completed_eq_true_iff fsFiles output_dir pdf_modes pdf_name hE, ?_, ?_⟩
  · intro g hc
    rw [is_completed_eq_true_iff _ _ _ _ hE] at hc ⊢
    intro f hf
    exact List.mem_cons_of_mem g (hc f hf)
  · intro m hm hrest
    rw [is_completed_eq_true_iff _ _ _ _ hE]
    intro f hf
    by_cases hfm : f = m
    · subst hfm
      exact List.mem_cons_self f fsFiles
    · exact List.mem_cons_of_mem m (hrest f hf hfm)

/-- C5 witness: with only the translated-only mode required and its expected
file present, the completeness predicate evaluates to true through the
amended equivalence. -/
theorem is_completed_iff_all_outputs_witness :
    is_completed ["output/a_translated.pdf"] "output" ["translated_only"] "a" = true :=
  ((is_completed_iff_all_outputs ["output/a_translated.pdf"] "output" "a"
    ["translated_only"] (by decide)).1).mpr (by decide)

/-- C6 counterexample: the partial-split marker is matched against the base
name only, so a file whose directory component contains `_part` is returned
by the scan even though its full path contains an exclusion marker. -/
theorem dir_component_marker_not_excluded :
    scan_pdf_files [⟨"input/spare_parts", "a.pdf"⟩] = [⟨"input/spare_parts", "a.pdf"⟩] ∧
    strContains "_part" (fullPath ⟨"input/spare_parts", "a.pdf"⟩) = true := by decide

/-- C6 amended: every file returned by the scan has a base name free of the
compressed-copy and partial-split markers and a full path free of the
temp-split directory component; only the third marker is checked against the
full path. -/
theorem scan_output_markers_absent (files : List FileEntry) (f : FileEntry)
    (h : f ∈ scan_pdf_files files) :
    strContains "_compressed.pdf" f.name = false ∧
    strContains "_part" f.name = false ∧
    strContains "temp_splits" (fullPath f) = false := by
  unfold scan_pdf_files at h
  rw [List.mem_filter] at h
  obtain ⟨-, hcond⟩ := h
  simp only [Bool.not_eq_eq_eq_not, Bool.not_true, Bool.or_eq_false_iff] at hcond
  exact ⟨hcond.1.1, hcond.1.2, hcond.2⟩

/-- C6 witness: the amended exclusion property instantiated at a clean
concrete file returned by the scan. -/
theorem scan_output_markers_absent_witness :
    strContains "_compressed.pdf" (FileEntry.mk "input" "a.pdf").name = false ∧
    strContains "_part" (FileEntry.mk "input" "a.pdf").name = false ∧
    strContains "temp_splits" (fullPath (FileEntry.mk "input" "a.pdf")) = false :=
  scan_output_markers_absent [⟨"input", "a.pdf"⟩] ⟨"input", "a.pdf"⟩ (by decide)

/-- C9 counterexample: `counterpart.pdf` does not contain the substring
`_part` (there is no underscore), so it is retained by the scan, contrary to
the claim that it is excluded. -/
theorem counterpart_retained_by_scan :
    strContains "_part" "counterpart.pdf" = false ∧
    scan_pdf_files [⟨"input", "counterpart.pdf"⟩] = [⟨"input", "counterpart.pdf"⟩] := by decide

/-- C9 amended: exclusion is by substring containment in the base name — a
file whose base name contains `_part` anywhere (for example
`two_particles.pdf`) is excluded from discovery even though it is not a
partial-split artifact; a name without the underscore, such as
`counterpart.pdf`, is not excluded. -/
theorem name_substring_part_excluded (files : List FileEntry) (f : FileEntry)
    (hpart : strContains "_part" f.name = true) :
    f ∉ scan_pdf_files files := by
  intro h
  unfold scan_pdf_files at h
  rw [List.mem_filter] at h
  obtain ⟨-, hcond⟩ := h
  simp [hpart] at hcond

/-- C9 witness: `two_particles.pdf` contains `_part` as a substring and is
excluded from the scan of a directory holding only that file. -/
theorem name_substring_part_excluded_witness :
    strContains "_part" (FileEntry.mk "input" "two_particles.pdf").name = true ∧
    (⟨"input", "two_particles.pdf"⟩ : FileEntry) ∉ scan_pdf_files [⟨"input", "two_particles.pdf"⟩] :=
  ⟨by decide, name_substring_part_excluded [⟨"input", "two_particles.pdf"⟩]
    ⟨"input", "two_particles.pdf"⟩ (by decide)⟩
